import Mathlib

/-!
Verification of the PANIC web-installer wizard state model: the normalized
entity store (chains, nodes, repositories), its action vocabulary and reducer,
the step navigator, and the presentational components present in the sources
(the redux action creators, ChainNameForm, NavigationButton).
-/

namespace PanicModel

/-- Action kind tag for creating a chain (string constant of the redux types module). -/
def ADD_CHAIN : String := "ADD_CHAIN"

/-- Action kind tag for removing a chain. -/
def REMOVE_CHAIN : String := "REMOVE_CHAIN"

/-- Action kind tag for updating a chain. -/
def UPDATE_CHAIN : String := "UPDATE_CHAIN"

/-- Action kind tag for adding a node to a chain. -/
def ADD_NODE : String := "ADD_NODE"

/-- Action kind tag for adding a repository to a chain. -/
def ADD_REPOSITORY : String := "ADD_REPOSITORY"

/-- A node entity: an id plus type-specific connection fields, opaque to the core. -/
structure Node where
  id : String
  config : String
  deriving DecidableEq

/-- A repository entity: an id plus repository url / monitor-enabled fields, opaque here. -/
structure Repository where
  id : String
  config : String
  deriving DecidableEq

/-- The payload schemas of the five action shapes of the vocabulary. -/
inductive Payload where
  | chainFields (id name ctype : String)
  | chainRef (id : String)
  | chainUpdate (id : String) (newName : Option String)
  | nodeFor (chainId : String) (node : Node)
  | repositoryFor (chainId : String) (repository : Repository)
  deriving DecidableEq

/-- An action: a tagged record pairing a kind tag with a payload, as built by the
action creators of the redux actions module. -/
structure Action where
  type : String
  payload : Payload
  deriving DecidableEq

/-- Action creator for ADD_CHAIN, from the redux actions source file. -/
def addChain (payload : Payload) : Action :=
  { type := ADD_CHAIN, payload := payload }

/-- Action creator for REMOVE_CHAIN, from the redux actions source file. -/
def removeChain (payload : Payload) : Action :=
  { type := REMOVE_CHAIN, payload := payload }

/-- Action creator for UPDATE_CHAIN, from the redux actions source file. -/
def updateChain (payload : Payload) : Action :=
  { type := UPDATE_CHAIN, payload := payload }

/-- Action creator for ADD_NODE, from the redux actions source file. -/
def addNode (payload : Payload) : Action :=
  { type := ADD_NODE, payload := payload }

/-- Action creator for ADD_REPOSITORY, from the redux actions source file. -/
def addRepository (payload : Payload) : Action :=
  { type := ADD_REPOSITORY, payload := payload }

/-- A chain record: identity, user name, monitoring type, and ordered lists of
node and repository references. -/
structure Chain where
  id : String
  name : String
  type : String
  nodes : List String
  repositories : List String
  deriving DecidableEq

/-- A node entity as stored: a node belongs to exactly one chain, and its id is
unique only within its owning chain, so the store keys it by owning chain. -/
structure StoredNode where
  chainId : String
  node : Node
  deriving DecidableEq

/-- A repository entity as stored, keyed by its owning chain. -/
structure StoredRepository where
  chainId : String
  repository : Repository
  deriving DecidableEq

/-- The normalized entity store: tables of chains, nodes and repositories. -/
structure EntityStore where
  chains : List Chain
  nodes : List StoredNode
  repositories : List StoredRepository
  deriving DecidableEq

/-- The error kinds the entity store reducer can surface. -/
inductive StoreError where
  | DuplicateIdentity
  | UnknownEntity
  | UnknownAction
  deriving DecidableEq

/-- Modelled from the spec: the ADD_CHAIN branch of the entity store reducer,
which is not among the source files (only its action creators are). Creates a
chain with empty node and repository lists; rejected with DuplicateIdentity if
the id already exists or the name collides within the same type. -/
def reduceAddChain (s : EntityStore) (id name ctype : String) :
    Except StoreError EntityStore :=
  if s.chains.any (fun c => c.id == id) then
    .error .DuplicateIdentity
  else if s.chains.any (fun c => c.name == name && c.type == ctype) then
    .error .DuplicateIdentity
  else
    .ok { s with chains := s.chains ++
            [{ id := id, name := name, type := ctype, nodes := [], repositories := [] }] }

/-- Modelled from the spec: the REMOVE_CHAIN branch of the reducer. Deletes the
chain and cascades deletion to its nodes and repositories; UnknownEntity if the
id does not exist. -/
def reduceRemoveChain (s : EntityStore) (id : String) :
    Except StoreError EntityStore :=
  if s.chains.any (fun c => c.id == id) then
    .ok { chains := s.chains.filter (fun c => c.id != id),
          nodes := s.nodes.filter (fun n => n.chainId != id),
          repositories := s.repositories.filter (fun r => r.chainId != id) }
  else
    .error .UnknownEntity

/-- Modelled from the spec: merging the given UPDATE_CHAIN fields into an
existing chain record (the only updatable field surfaced by the spec examples
is the name). -/
def mergeChain (c : Chain) (newName : Option String) : Chain :=
  { c with name := newName.getD c.name }

/-- Modelled from the spec: the UPDATE_CHAIN branch of the reducer. Merges the
given fields into the existing chain record; UnknownEntity if the id does not
exist, DuplicateIdentity if the merge would make the name collide with another
chain of the same type. -/
def reduceUpdateChain (s : EntityStore) (id : String) (newName : Option String) :
    Except StoreError EntityStore :=
  match s.chains.find? (fun c => c.id == id) with
  | none => .error .UnknownEntity
  | some c =>
    if s.chains.any (fun d =>
        d.id != id && d.name == (mergeChain c newName).name
          && d.type == (mergeChain c newName).type) then
      .error .DuplicateIdentity
    else
      .ok { s with chains := s.chains.map (fun d =>
              if d.id == id then mergeChain c newName else d) }

/-- Modelled from the spec: the ADD_NODE branch of the reducer. Appends the node
to the chain node list and to the node table; UnknownEntity if the chain id
does not exist. -/
def reduceAddNode (s : EntityStore) (chainId : String) (n : Node) :
    Except StoreError EntityStore :=
  if s.chains.any (fun c => c.id == chainId) then
    .ok { s with
          chains := s.chains.map (fun c =>
            if c.id == chainId then { c with nodes := c.nodes ++ [n.id] } else c),
          nodes := s.nodes ++ [{ chainId := chainId, node := n }] }
  else
    .error .UnknownEntity

/-- Modelled from the spec: the ADD_REPOSITORY branch of the reducer. Appends
the repository to the chain repository list and to the repository table;
UnknownEntity if the chain id does not exist. -/
def reduceAddRepository (s : EntityStore) (chainId : String) (r : Repository) :
    Except StoreError EntityStore :=
  if s.chains.any (fun c => c.id == chainId) then
    .ok { s with
          chains := s.chains.map (fun c =>
            if c.id == chainId then { c with repositories := c.repositories ++ [r.id] } else c),
          repositories := s.repositories ++ [{ chainId := chainId, repository := r }] }
  else
    .error .UnknownEntity

/-- Modelled from the spec: the entity store reducer, a pure function from store
and action to a new store or an error. Dispatches on the action kind tag; an
action whose kind is outside the five-kind vocabulary (or whose payload does
not fit its kind schema) is rejected with UnknownAction. -/
def reduce (s : EntityStore) (a : Action) : Except StoreError EntityStore :=
  if a.type = ADD_CHAIN then
    match a.payload with
    | .chainFields id name ctype => reduceAddChain s id name ctype
    | _ => .error .UnknownAction
  else if a.type = REMOVE_CHAIN then
    match a.payload with
    | .chainRef id => reduceRemoveChain s id
    | _ => .error .UnknownAction
  else if a.type = UPDATE_CHAIN then
    match a.payload with
    | .chainUpdate id newName => reduceUpdateChain s id newName
    | _ => .error .UnknownAction
  else if a.type = ADD_NODE then
    match a.payload with
    | .nodeFor chainId n => reduceAddNode s chainId n
    | _ => .error .UnknownAction
  else if a.type = ADD_REPOSITORY then
    match a.payload with
    | .repositoryFor chainId r => reduceAddRepository s chainId r
    | _ => .error .UnknownAction
  else
    .error .UnknownAction

/-- Modelled from the spec: how a rejected action is surfaced to the caller.
On success the new store is adopted with no error; on rejection the store
remains unchanged and the error is surfaced. -/
def applyAction (s : EntityStore) (a : Action) : EntityStore × Option StoreError :=
  match reduce s a with
  | .ok t => (t, none)
  | .error e => (s, some e)

/-- The no-dangling-reference invariant: every chain of the store references,
through its nodes and repositories lists, only entities present in the store
and owned by that chain. -/
def noDangling (s : EntityStore) : Prop :=
  ∀ c ∈ s.chains,
    (∀ nid ∈ c.nodes, ∃ sn ∈ s.nodes, sn.chainId = c.id ∧ sn.node.id = nid) ∧
    (∀ rid ∈ c.repositories, ∃ sr ∈ s.repositories, sr.chainId = c.id ∧ sr.repository.id = rid)

instance noDanglingDecidable (s : EntityStore) : Decidable (noDangling s) := by
  unfold noDangling
  exact inferInstance

/-- Modelled from the spec: the ordered step identifiers of the wizard. -/
inductive Step where
  | NAME
  | NODES
  | REPOSITORIES
  | CHANNELS
  | REVIEW
  deriving DecidableEq

/-- The NEXT label constant of the constants module (its source is not among
the files; only its use by ChainNameForm is). -/
def NEXT : String := "Next"

/-- The NODES_STEP navigation constant of the constants module, the step
identifier the chain name form navigates to. -/
def NODES_STEP : String := "NODES"

/-- Modelled from the spec: the step-sequence configuration table keyed by
chain type; the spec fixes the cosmos sequence as NAME, NODES, REPOSITORIES,
CHANNELS, REVIEW. -/
def stepSequence (ctype : String) : List Step :=
  if ctype = "cosmos" then
    [Step.NAME, Step.NODES, Step.REPOSITORIES, Step.CHANNELS, Step.REVIEW]
  else
    [Step.NAME, Step.NODES, Step.REPOSITORIES, Step.CHANNELS, Step.REVIEW]

/-- Modelled from the spec: the wizard session, bundling the entity store being
built, the index of the current step in the step sequence, and the validation
errors of the active step (a mapping from field name to message). -/
structure WizardSession where
  store : EntityStore
  currentStep : Nat
  validationErrors : List (String × String)
  deriving DecidableEq

/-- Modelled from the spec: an empty errors mapping signals the step is valid. -/
def stepValid (errors : List (String × String)) : Bool :=
  errors.isEmpty

/-- Modelled from the spec: advance moves to the next step in the sequence,
and is allowed only when the active step reports zero validation errors; the
terminal step has no successor, so advance there is a no-op. Validation errors
are cleared on a successful advance. -/
def advance (seq : List Step) (w : WizardSession) : WizardSession :=
  if stepValid w.validationErrors then
    if w.currentStep + 1 < seq.length then
      { w with currentStep := w.currentStep + 1, validationErrors := [] }
    else
      w
  else
    w

/-- Modelled from the spec: retreat is always allowed, with no validation gate,
moves to the previous step, and discards no already-entered data. -/
def retreat (w : WizardSession) : WizardSession :=
  if w.currentStep = 0 then
    w
  else
    { w with currentStep := w.currentStep - 1 }

/-- The bindings the ChainNameForm component renders: which callbacks are wired
to which controls and how the error state drives the field and the button. -/
structure ChainNameFormView (α : Type) where
  formOnChange : α
  fieldValue : String
  fieldError : Bool
  fieldHelperText : String
  fieldOnChange : α
  buttonOnClick : α
  buttonDisabled : Bool
  buttonText : String
  buttonNavigation : String

/-- The ChainNameForm component from the sources, rendered as its bindings.
The errors object is a mapping from field name to message; a field error is
shown when the chainName entry is present and non-empty (the truthiness test
of the source), and the step button is disabled unless the errors object has
zero keys. The form onChange and the button onClick are both handleSubmit. -/
def ChainNameForm {α : Type} (errors : List (String × String)) (chainNameValue : String)
    (handleSubmit handleChange : α) : ChainNameFormView α :=
  { formOnChange := handleSubmit,
    fieldValue := chainNameValue,
    fieldError := ((errors.lookup "chainName").getD "") != "",
    fieldHelperText := (errors.lookup "chainName").getD "",
    fieldOnChange := handleChange,
    buttonOnClick := handleSubmit,
    buttonDisabled := !(errors.length == 0),
    buttonText := NEXT,
    buttonNavigation := NODES_STEP }

/-- A browser event, reduced to the one observable the code touches. -/
structure BrowserEvent where
  defaultPrevented : Bool
  deriving DecidableEq

/-- The preventDefault method of a browser event. -/
def preventDefault (e : BrowserEvent) : BrowserEvent :=
  { e with defaultPrevented := true }

/-- The observable effects a click handler can perform, in order: calling
preventDefault on the event, and invoking the nextPage callback with a target. -/
inductive UIEffect where
  | PreventDefault
  | NextPageCall (target : String)
  deriving DecidableEq

/-- The triggerNextPage handler of NavigationButton from the sources: it calls
preventDefault on the event and then invokes nextPage with the navigation prop.
It returns the updated event together with the ordered trace of its effects. -/
def triggerNextPage (navigation : String) (e : BrowserEvent) :
    BrowserEvent × List UIEffect :=
  (preventDefault e, [UIEffect.PreventDefault, UIEffect.NextPageCall navigation])

/-- The bindings the NavigationButton component renders. -/
structure NavigationButtonView where
  buttonOnClick : BrowserEvent → BrowserEvent × List UIEffect
  buttonLabel : String

/-- The NavigationButton component from the sources: its button onClick is the
triggerNextPage handler closed over the navigation prop, and its label is the
buttonText prop. -/
def NavigationButton (buttonText navigation : String) : NavigationButtonView :=
  { buttonOnClick := triggerNextPage navigation,
    buttonLabel := buttonText }

/-- The empty entity store, the initial state of a wizard session. -/
def emptyStore : EntityStore :=
  { chains := [], nodes := [], repositories := [] }

/-- A sample chain record used in concrete witnesses. -/
def chainC1 : Chain :=
  { id := "c1", name := "cosmos-1", type := "cosmos", nodes := [], repositories := [] }

/-- A sample store holding exactly the chain chainC1. -/
def storeC1 : EntityStore :=
  { chains := [chainC1], nodes := [], repositories := [] }

/-- An action with a kind tag outside the five-kind vocabulary. -/
def typoAction : Action :=
  { type := "TYPO_ACTION", payload := Payload.chainRef "c1" }

/-- A sample errors mapping with one entry for the chainName field. -/
def sampleErrors : List (String × String) :=
  [("chainName", "missing")]

/-- A sample session on the first step with pending validation errors. -/
def erroredSession : WizardSession :=
  { store := emptyStore, currentStep := 0, validationErrors := sampleErrors }

/-- A sample session sitting on the terminal REVIEW step, index 4. -/
def reviewSession : WizardSession :=
  { store := emptyStore, currentStep := 4, validationErrors := [] }

/-- A sample store with one node already entered for chain c1. -/
def storeWithNode : EntityStore :=
  { chains := [],
    nodes := [{ chainId := "c1", node := { id := "n1", config := "" } }],
    repositories := [] }

/-- A sample session on the REPOSITORIES step, index 2, with a node entered
and pending validation errors. -/
def repositoriesSession : WizardSession :=
  { store := storeWithNode, currentStep := 2, validationErrors := [("field", "bad")] }

/-- Finding through a map whose function preserves the search predicate. -/
theorem find?_map_invariant {α : Type} {p : α → Bool} {f : α → α}
    (hp : ∀ d, p (f d) = p d) (l : List α) :
    (l.map f).find? p = (l.find? p).map f := by
  induction l with
  | nil => rfl
  | cons d l ih =>
    by_cases hd : p d = true
    · rw [List.map_cons, List.find?_cons_of_pos _ (by rw [hp]; exact hd),
        List.find?_cons_of_pos _ hd]
      rfl
    · rw [List.map_cons, List.find?_cons_of_neg _ (by rw [hp]; exact hd),
        List.find?_cons_of_neg _ hd, ih]

/-- Any over a map whose function preserves the predicate. -/
theorem any_map_invariant {α : Type} {q : α → Bool} {f : α → α}
    (hq : ∀ d, q (f d) = q d) (l : List α) :
    (l.map f).any q = l.any q := by
  induction l with
  | nil => rfl
  | cons d l ih => simp [List.any_cons, hq, ih]

/-- Mapping twice with a pointwise idempotent function. -/
theorem map_map_invariant {α : Type} {f : α → α}
    (hf : ∀ d, f (f d) = f d) (l : List α) :
    (l.map f).map f = l.map f := by
  induction l with
  | nil => rfl
  | cons d l ih => simp only [List.map_cons, hf, ih]

/-- Merging the same fields a second time changes nothing. -/
theorem mergeChain_idem (c : Chain) (newName : Option String) :
    mergeChain (mergeChain c newName) newName = mergeChain c newName := by
  cases newName <;> rfl

/-- Claim C4: for every store and every action whose kind tag is not one of the
five vocabulary kinds, the reducer rejects it with an UnknownAction error and
the store is unchanged, rather than the action being silently ignored. -/
theorem c4_unknown_action_rejected (s : EntityStore) (a : Action)
    (h : a.type ∉ [ADD_CHAIN, REMOVE_CHAIN, UPDATE_CHAIN, ADD_NODE, ADD_REPOSITORY]) :
    applyAction s a = (s, some StoreError.UnknownAction) := by
  simp only [List.mem_cons, List.not_mem_nil, or_false, not_or] at h
  obtain ⟨h1, h2, h3, h4, h5⟩ := h
  simp [applyAction, reduce, h1, h2, h3, h4, h5]

/-- Closed witness for claim C4 at a concrete unknown action kind. -/
theorem c4_unknown_action_rejected_witness :
    typoAction.type ∉ [ADD_CHAIN, REMOVE_CHAIN, UPDATE_CHAIN, ADD_NODE, ADD_REPOSITORY] ∧
    applyAction emptyStore typoAction = (emptyStore, some StoreError.UnknownAction) :=
  ⟨by decide, c4_unknown_action_rejected emptyStore typoAction (by decide)⟩

/-- Claim C5: the wizard never moves forward while the active step has
validation errors: advance is a no-op whenever the errors mapping is
non-empty, and the Next control of ChainNameForm is disabled whenever its
errors mapping is non-empty. -/
theorem c5_no_advance_with_errors {α : Type} (seq : List Step) (w : WizardSession)
    (errors : List (String × String)) (v : String) (handleSubmit handleChange : α)
    (hw : w.validationErrors ≠ []) (he : errors ≠ []) :
    advance seq w = w ∧
    (ChainNameForm errors v handleSubmit handleChange).buttonDisabled = true := by
  constructor
  · cases hval : w.validationErrors with
    | nil => exact absurd hval hw
    | cons p l => simp [advance, stepValid, hval]
  · cases errors with
    | nil => exact absurd rfl he
    | cons p l => simp [ChainNameForm]

/-- Closed witness for claim C5 at a concrete errored session and form. -/
theorem c5_no_advance_with_errors_witness :
    advance (stepSequence "cosmos") erroredSession = erroredSession ∧
    (ChainNameForm sampleErrors "" (0 : Nat) (1 : Nat)).buttonDisabled = true :=
  c5_no_advance_with_errors (stepSequence "cosmos") erroredSession
    sampleErrors "" (0 : Nat) (1 : Nat) (by decide) (by decide)

/-- Claim C6: the step sequence for chain type cosmos is exactly NAME, NODES,
REPOSITORIES, CHANNELS, REVIEW, so the successor of NAME is NODES, and advance
invoked at the terminal REVIEW step (index 4) leaves the session unchanged. -/
theorem c6_cosmos_sequence_and_terminal (w : WizardSession) (hw : w.currentStep = 4) :
    stepSequence "cosmos"
        = [Step.NAME, Step.NODES, Step.REPOSITORIES, Step.CHANNELS, Step.REVIEW] ∧
    (stepSequence "cosmos")[1]? = some Step.NODES ∧
    (stepSequence "cosmos")[4]? = some Step.REVIEW ∧
    advance (stepSequence "cosmos") w = w := by
  refine ⟨rfl, rfl, rfl, ?_⟩
  simp [advance, stepSequence, hw]

/-- Closed witness for claim C6 at a concrete session sitting on REVIEW. -/
theorem c6_cosmos_sequence_and_terminal_witness :
    stepSequence "cosmos"
        = [Step.NAME, Step.NODES, Step.REPOSITORIES, Step.CHANNELS, Step.REVIEW] ∧
    (stepSequence "cosmos")[1]? = some Step.NODES ∧
    (stepSequence "cosmos")[4]? = some Step.REVIEW ∧
    advance (stepSequence "cosmos") reviewSession = reviewSession :=
  c6_cosmos_sequence_and_terminal reviewSession rfl

/-- Claim C7: retreat always succeeds from any non-initial step with no
validation gate, moves to the immediately previous step, and leaves the entity
store unchanged, so no previously entered entity data is discarded. -/
theorem c7_retreat_previous_step_keeps_store (w : WizardSession)
    (h : w.currentStep ≠ 0) :
    (retreat w).currentStep = w.currentStep - 1 ∧ (retreat w).store = w.store := by
  simp [retreat, h]

/-- Closed witness for claim C7 at a concrete session, sitting on REPOSITORIES
with pending validation errors and a node already entered. -/
theorem c7_retreat_previous_step_keeps_store_witness :
    (retreat repositoriesSession).currentStep = repositoriesSession.currentStep - 1 ∧
    (retreat repositoriesSession).store = repositoriesSession.store :=
  c7_retreat_previous_step_keeps_store repositoriesSession (by decide)

/-- Claim C8: each of the five action creators is pure and returns exactly the
tagged record pairing its vocabulary tag with the given payload unchanged. -/
theorem c8_action_creators_return_tagged_record (p : Payload) :
    addChain p = { type := ADD_CHAIN, payload := p } ∧
    removeChain p = { type := REMOVE_CHAIN, payload := p } ∧
    updateChain p = { type := UPDATE_CHAIN, payload := p } ∧
    addNode p = { type := ADD_NODE, payload := p } ∧
    addRepository p = { type := ADD_REPOSITORY, payload := p } :=
  ⟨rfl, rfl, rfl, rfl, rfl⟩

/-- Claim C9: in ChainNameForm the handleSubmit callback is installed as the
form onChange handler, so it fires on every field-change event of the form,
not only from the Next step button, whose onClick is the same callback. -/
theorem c9_handle_submit_is_form_onchange {α : Type} (errors : List (String × String))
    (v : String) (handleSubmit handleChange : α) :
    (ChainNameForm errors v handleSubmit handleChange).formOnChange = handleSubmit ∧
    (ChainNameForm errors v handleSubmit handleChange).buttonOnClick = handleSubmit ∧
    (ChainNameForm errors v handleSubmit handleChange).fieldOnChange = handleChange :=
  ⟨rfl, rfl, rfl⟩

/-- Claim C10: every click on the NavigationButton button first calls
preventDefault on the event and then invokes the nextPage callback exactly
once with the navigation prop as its only argument. -/
theorem c10_navigation_button_click (buttonText navigation : String) (e : BrowserEvent) :
    ((NavigationButton buttonText navigation).buttonOnClick e).2
        = [UIEffect.PreventDefault, UIEffect.NextPageCall navigation] ∧
    ((NavigationButton buttonText navigation).buttonOnClick e).1 = preventDefault e ∧
    ((NavigationButton buttonText navigation).buttonOnClick e).1.defaultPrevented = true ∧
    (((NavigationButton buttonText navigation).buttonOnClick e).2.countP
        (fun x => match x with | UIEffect.NextPageCall _ => true | _ => false)) = 1 :=
  ⟨rfl, rfl, rfl, rfl⟩

/-- The ADD_CHAIN branch preserves the no-dangling-reference invariant. -/
theorem noDangling_reduceAddChain {s t : EntityStore} {id name ctype : String}
    (hs : noDangling s) (h : reduceAddChain s id name ctype = .ok t) : noDangling t := by
  unfold reduceAddChain at h
  split_ifs at h with h1 h2
  · injection h with h
    subst h
    intro c hc
    rw [List.mem_append] at hc
    rcases hc with hc | hc
    · obtain ⟨hn, hr⟩ := hs c hc
      exact ⟨hn, hr⟩
    · rw [List.mem_singleton] at hc
      subst hc
      constructor
      · intro nid hnid
        exact absurd hnid (List.not_mem_nil nid)
      · intro rid hrid
        exact absurd hrid (List.not_mem_nil rid)

/-- The REMOVE_CHAIN branch preserves the no-dangling-reference invariant:
the cascade deletes exactly the nodes and repositories owned by the removed
chain, which no surviving chain references. -/
theorem noDangling_reduceRemoveChain {s t : EntityStore} {id : String}
    (hs : noDangling s) (h : reduceRemoveChain s id = .ok t) : noDangling t := by
  unfold reduceRemoveChain at h
  split_ifs at h with h1
  · injection h with h
    subst h
    intro c hc
    rw [List.mem_filter] at hc
    obtain ⟨hc, hcid⟩ := hc
    have hcne : c.id ≠ id := by simpa using hcid
    obtain ⟨hn, hr⟩ := hs c hc
    constructor
    · intro nid hnid
      obtain ⟨sn, hsn, hsc, hsi⟩ := hn nid hnid
      refine ⟨sn, ?_, hsc, hsi⟩
      rw [List.mem_filter]
      refine ⟨hsn, ?_⟩
      simp [hsc, hcne]
    · intro rid hrid
      obtain ⟨sr, hsr, hsc, hsi⟩ := hr rid hrid
      refine ⟨sr, ?_, hsc, hsi⟩
      rw [List.mem_filter]
      refine ⟨hsr, ?_⟩
      simp [hsc, hcne]

/-- The UPDATE_CHAIN branch preserves the no-dangling-reference invariant:
merging fields keeps the chain id and its reference lists. -/
theorem noDangling_reduceUpdateChain {s t : EntityStore} {id : String}
    {newName : Option String}
    (hs : noDangling s) (h : reduceUpdateChain s id newName = .ok t) : noDangling t := by
  unfold reduceUpdateChain at h
  split at h
  · exact Except.noConfusion h
  · rename_i c0 hf
    split_ifs at h with hdup
    injection h with h
    subst h
    have hc0 : c0 ∈ s.chains := List.mem_of_find?_eq_some hf
    intro c hc
    rw [List.mem_map] at hc
    obtain ⟨d, hd, hdc⟩ := hc
    by_cases hid : (d.id == id) = true
    · rw [if_pos hid] at hdc
      subst hdc
      obtain ⟨hn, hr⟩ := hs c0 hc0
      constructor
      · intro nid hnid
        obtain ⟨sn, hsn, h1, h2⟩ := hn nid (by simpa [mergeChain] using hnid)
        exact ⟨sn, hsn, by simpa [mergeChain] using h1, h2⟩
      · intro rid hrid
        obtain ⟨sr, hsr, h1, h2⟩ := hr rid (by simpa [mergeChain] using hrid)
        exact ⟨sr, hsr, by simpa [mergeChain] using h1, h2⟩
    · rw [if_neg hid] at hdc
      subst hdc
      exact hs d hd

/-- The ADD_NODE branch preserves the no-dangling-reference invariant: the
appended node reference is backed by the appended node table entry. -/
theorem noDangling_reduceAddNode {s t : EntityStore} {chainId : String} {n : Node}
    (hs : noDangling s) (h : reduceAddNode s chainId n = .ok t) : noDangling t := by
  unfold reduceAddNode at h
  split_ifs at h with h1
  · injection h with h
    subst h
    intro c hc
    rw [List.mem_map] at hc
    obtain ⟨d, hd, hdc⟩ := hc
    obtain ⟨hn, hr⟩ := hs d hd
    by_cases hid : (d.id == chainId) = true
    · rw [if_pos hid] at hdc
      subst hdc
      constructor
      · intro nid hnid
        rw [List.mem_append] at hnid
        rcases hnid with hnid | hnid
        · obtain ⟨sn, hsn, hsc, hsi⟩ := hn nid hnid
          exact ⟨sn, List.mem_append_left _ hsn, hsc, hsi⟩
        · rw [List.mem_singleton] at hnid
          subst hnid
          refine ⟨{ chainId := chainId, node := n },
            List.mem_append_right _ (List.mem_singleton_self _), ?_, rfl⟩
          have hde : d.id = chainId := by simpa using hid
          simp [hde]
      · intro rid hrid
        exact hr rid hrid
    · rw [if_neg hid] at hdc
      subst hdc
      constructor
      · intro nid hnid
        obtain ⟨sn, hsn, hsc, hsi⟩ := hn nid hnid
        exact ⟨sn, List.mem_append_left _ hsn, hsc, hsi⟩
      · intro rid hrid
        exact hr rid hrid

/-- The ADD_REPOSITORY branch preserves the no-dangling-reference invariant:
the appended repository reference is backed by the appended table entry. -/
theorem noDangling_reduceAddRepository {s t : EntityStore} {chainId : String}
    {r : Repository}
    (hs : noDangling s) (h : reduceAddRepository s chainId r = .ok t) : noDangling t := by
  unfold reduceAddRepository at h
  split_ifs at h with h1
  · injection h with h
    subst h
    intro c hc
    rw [List.mem_map] at hc
    obtain ⟨d, hd, hdc⟩ := hc
    obtain ⟨hn, hr⟩ := hs d hd
    by_cases hid : (d.id == chainId) = true
    · rw [if_pos hid] at hdc
      subst hdc
      constructor
      · intro nid hnid
        exact hn nid hnid
      · intro rid hrid
        rw [List.mem_append] at hrid
        rcases hrid with hrid | hrid
        · obtain ⟨sr, hsr, hsc, hsi⟩ := hr rid hrid
          exact ⟨sr, List.mem_append_left _ hsr, hsc, hsi⟩
        · rw [List.mem_singleton] at hrid
          subst hrid
          refine ⟨{ chainId := chainId, repository := r },
            List.mem_append_right _ (List.mem_singleton_self _), ?_, rfl⟩
          have hde : d.id = chainId := by simpa using hid
          simp [hde]
    · rw [if_neg hid] at hdc
      subst hdc
      constructor
      · intro nid hnid
        exact hn nid hnid
      · intro rid hrid
        obtain ⟨sr, hsr, hsc, hsi⟩ := hr rid hrid
        exact ⟨sr, List.mem_append_left _ hsr, hsc, hsi⟩

/-- Claim C2: every action the reducer accepts preserves the
no-dangling-reference invariant; in particular REMOVE_CHAIN cascades deletion
to the removed chain's nodes and repositories, so a store satisfying the
invariant can only step to stores satisfying it. -/
theorem c2_reduce_preserves_noDangling (s : EntityStore) (a : Action) (t : EntityStore)
    (hs : noDangling s) (h : reduce s a = .ok t) : noDangling t := by
  unfold reduce at h
  split_ifs at h with h1 h2 h3 h4 h5
  · cases hp : a.payload <;> rw [hp] at h
    all_goals try exact Except.noConfusion h
    exact noDangling_reduceAddChain hs h
  · cases hp : a.payload <;> rw [hp] at h
    all_goals try exact Except.noConfusion h
    exact noDangling_reduceRemoveChain hs h
  · cases hp : a.payload <;> rw [hp] at h
    all_goals try exact Except.noConfusion h
    exact noDangling_reduceUpdateChain hs h
  · cases hp : a.payload <;> rw [hp] at h
    all_goals try exact Except.noConfusion h
    exact noDangling_reduceAddNode hs h
  · cases hp : a.payload <;> rw [hp] at h
    all_goals try exact Except.noConfusion h
    exact noDangling_reduceAddRepository hs h

/-- Closed witness for claim C2: accepting ADD_CHAIN on the empty store keeps
the invariant. -/
theorem c2_reduce_preserves_noDangling_witness :
    noDangling emptyStore ∧ noDangling storeC1 :=
  ⟨by decide,
    c2_reduce_preserves_noDangling emptyStore
      (addChain (Payload.chainFields "c1" "cosmos-1" "cosmos")) storeC1 (by decide) rfl⟩

/-- Claim C1: an ADD_CHAIN action whose payload id already exists, or whose
name and type pair duplicates an existing chain of the same type, is rejected
with a DuplicateIdentity error and the resulting store equals the input store. -/
theorem c1_add_chain_duplicate_rejected (s : EntityStore) (id name ctype : String)
    (hdup : (∃ c ∈ s.chains, c.id = id) ∨ (∃ c ∈ s.chains, c.name = name ∧ c.type = ctype)) :
    applyAction s (addChain (Payload.chainFields id name ctype))
      = (s, some StoreError.DuplicateIdentity) := by
  rcases hdup with ⟨c, hc, hcid⟩ | ⟨c, hc, hcn, hct⟩
  · have h1 : s.chains.any (fun c => c.id == id) = true :=
      List.any_eq_true.mpr ⟨c, hc, by simp [hcid]⟩
    simp [applyAction, reduce, addChain, reduceAddChain, h1]
  · by_cases h1 : s.chains.any (fun c => c.id == id) = true
    · simp [applyAction, reduce, addChain, reduceAddChain, h1]
    · have h2 : s.chains.any (fun c => c.name == name && c.type == ctype) = true :=
        List.any_eq_true.mpr ⟨c, hc, by simp [hcn, hct]⟩
      simp [applyAction, reduce, addChain, reduceAddChain, h1, h2]

/-- Closed witness for claim C1: re-adding the already present chain c1. -/
theorem c1_add_chain_duplicate_rejected_witness :
    ((∃ c ∈ storeC1.chains, c.id = "c1") ∨
      (∃ c ∈ storeC1.chains, c.name = "cosmos-1" ∧ c.type = "cosmos")) ∧
    applyAction storeC1 (addChain (Payload.chainFields "c1" "cosmos-1" "cosmos"))
      = (storeC1, some StoreError.DuplicateIdentity) :=
  ⟨by decide,
    c1_add_chain_duplicate_rejected storeC1 "c1" "cosmos-1" "cosmos" (by decide)⟩

/-- Applying the same UPDATE_CHAIN merge to a store it just produced returns
that store again. -/
theorem reduceUpdateChain_idem {s t : EntityStore} {id : String} {newName : Option String}
    (h : reduceUpdateChain s id newName = .ok t) :
    reduceUpdateChain t id newName = .ok t := by
  unfold reduceUpdateChain at h
  split at h
  · exact Except.noConfusion h
  · rename_i c0 hf
    split_ifs at h with hdup
    injection h with h
    subst h
    have hc0id : (c0.id == id) = true := by
      have h5 := List.find?_some hf
      simpa using h5
    have hmid : ((mergeChain c0 newName).id == id) = true := by
      simpa [mergeChain] using hc0id
    have hp : ∀ d : Chain,
        ((if d.id == id then mergeChain c0 newName else d).id == id) = (d.id == id) := by
      intro d
      by_cases hd : (d.id == id) = true
      · rw [if_pos hd, hmid, hd]
      · rw [if_neg hd]
    have hq : ∀ d : Chain,
        ((if d.id == id then mergeChain c0 newName else d).id != id
            && (if d.id == id then mergeChain c0 newName else d).name
                == (mergeChain c0 newName).name
            && (if d.id == id then mergeChain c0 newName else d).type
                == (mergeChain c0 newName).type)
          = (d.id != id && d.name == (mergeChain c0 newName).name
              && d.type == (mergeChain c0 newName).type) := by
      intro d
      by_cases hd : (d.id == id) = true
      · rw [if_pos hd]
        simp [bne, hmid, hd]
      · rw [if_neg hd]
    have hff : ∀ d : Chain,
        (if (if d.id == id then mergeChain c0 newName else d).id == id
            then mergeChain c0 newName
            else if d.id == id then mergeChain c0 newName else d)
          = (if d.id == id then mergeChain c0 newName else d) := by
      intro d
      by_cases hd : (d.id == id) = true
      · simp [hd, hmid]
      · simp [hd]
    have hdup2 : s.chains.any (fun d =>
        d.id != id && d.name == (mergeChain c0 newName).name
          && d.type == (mergeChain c0 newName).type) = false := by
      simpa using hdup
    have hfind : (s.chains.map
          (fun d => if d.id == id then mergeChain c0 newName else d)).find?
          (fun c => c.id == id) = some (mergeChain c0 newName) := by
      rw [@find?_map_invariant Chain (fun c => c.id == id)
        (fun d => if d.id == id then mergeChain c0 newName else d) hp s.chains, hf]
      show some (if c0.id == id then mergeChain c0 newName else c0)
        = some (mergeChain c0 newName)
      rw [if_pos hc0id]
    have hany : (s.chains.map
          (fun d => if d.id == id then mergeChain c0 newName else d)).any
          (fun d => d.id != id && d.name == (mergeChain c0 newName).name
            && d.type == (mergeChain c0 newName).type) = false := by
      rw [@any_map_invariant Chain
        (fun d => d.id != id && d.name == (mergeChain c0 newName).name
          && d.type == (mergeChain c0 newName).type)
        (fun d => if d.id == id then mergeChain c0 newName else d) hq s.chains]
      exact hdup2
    have hmap : (s.chains.map
          (fun d => if d.id == id then mergeChain c0 newName else d)).map
          (fun d => if d.id == id then mergeChain c0 newName else d)
        = s.chains.map (fun d => if d.id == id then mergeChain c0 newName else d) := by
      exact @map_map_invariant Chain
        (fun d => if d.id == id then mergeChain c0 newName else d) hff s.chains
    unfold reduceUpdateChain
    simp only [hfind, mergeChain_idem, hany, hmap]
    rfl

/-- Claim C3: for every store containing a chain with the given id, applying
the same UPDATE_CHAIN action twice yields the same outcome as applying it
once, so UPDATE_CHAIN with fixed fields is idempotent. -/
theorem c3_update_chain_idempotent (s : EntityStore) (id : String) (newName : Option String)
    (hmem : ∃ c ∈ s.chains, c.id = id) :
    applyAction (applyAction s (updateChain (Payload.chainUpdate id newName))).1
        (updateChain (Payload.chainUpdate id newName))
      = applyAction s (updateChain (Payload.chainUpdate id newName)) := by
  cases hr : reduce s (updateChain (Payload.chainUpdate id newName)) with
  | error e => simp [applyAction, hr]
  | ok t =>
    have h1 : reduceUpdateChain s id newName = .ok t := hr
    have h2 : reduce t (updateChain (Payload.chainUpdate id newName)) = .ok t :=
      reduceUpdateChain_idem h1
    simp [applyAction, hr, h2]

/-- Closed witness for claim C3: renaming chain c1 to X twice. -/
theorem c3_update_chain_idempotent_witness :
    (∃ c ∈ storeC1.chains, c.id = "c1") ∧
    applyAction (applyAction storeC1 (updateChain (Payload.chainUpdate "c1" (some "X")))).1
        (updateChain (Payload.chainUpdate "c1" (some "X")))
      = applyAction storeC1 (updateChain (Payload.chainUpdate "c1" (some "X"))) :=
  ⟨by decide, c3_update_chain_idempotent storeC1 "c1" (some "X") (by decide)⟩

end PanicModel
